import Mathlib

/-!
Shallow embedding of the Financial Calculation Engine of `src/app.js`
(the `FinancialCalculator` object and the scenario derivation in the
form submit handler).  JavaScript numbers are idealised as elements of a
linear ordered field; the calculators (`calculateROI`, `calculateNPV`,
`calculatePaybackPeriod`, `calculateIRR`) are polymorphic and are
instantiated at `ℚ` for concrete evaluation and at `ℝ` for the metrics
pipeline, whose growth de-annualisation uses a real twelfth root
(`Math.pow(1 + g/100, 1/12)`).
-/

namespace FinancialCalculator

variable {K : Type} [LinearOrderedField K]

/-- Embeds `calculateROI(investment, totalReturn)` of `src/app.js`:
`if (investment === 0) return 0; return ((totalReturn - investment) / investment) * 100`. -/
def calculateROI (investment totalReturn : K) : K :=
  if investment = 0 then 0 else (totalReturn - investment) / investment * 100

/-- The accumulation loop of `calculateNPV`: the term for the element at
index `i` of the original list is `cashFlows[i] / (1 + discountRate/100)^(i+1)`;
`q` is the per-period factor `1 + discountRate/100` and the second argument
tracks the index of the head of the remaining list. -/
def npvAux (q : K) : List K → ℕ → K
  | [], _ => 0
  | c :: cs, i => c / q ^ (i + 1) + npvAux q cs (i + 1)

/-- Embeds `calculateNPV(cashFlows, discountRate)` of `src/app.js`:
`npv += cashFlows[i] / Math.pow(1 + discountRate / 100, i + 1)` for
`i = 0 .. cashFlows.length - 1`. -/
def calculateNPV (cashFlows : List K) (discountRate : K) : K :=
  npvAux (1 + discountRate / 100) cashFlows 0

/-- The scan loop of `calculatePaybackPeriod`: `cum` is the running
cumulative cash flow, the `ℕ` argument the index of the month about to be
processed.  On the first month whose updated cumulative is `≥ 0` the code
interpolates: `fraction = -previousCumulative / monthlyCashFlows[i]` and
returns `i + fraction`; if the scan ends, the accumulated index equals the
original list length and is returned. -/
def paybackAux : K → List K → ℕ → K
  | _, [], i => (i : K)
  | cum, c :: cs, i =>
      if 0 ≤ cum + c then (i : K) + -cum / c
      else paybackAux (cum + c) cs (i + 1)

/-- Embeds `calculatePaybackPeriod(initialInvestment, monthlyCashFlows)` of
`src/app.js`: the cumulative starts at `-initialInvestment`. -/
def calculatePaybackPeriod (initialInvestment : K) (monthlyCashFlows : List K) : K :=
  paybackAux (-initialInvestment) monthlyCashFlows 0

/-- The inner `npv` accumulation of `calculateIRR`: the term for index `j`
is `cashFlows[j] / (1 + rate)^j` (index 0 undiscounted); `q = 1 + rate`. -/
def irrNpvAux (q : K) : List K → ℕ → K
  | [], _ => 0
  | c :: cs, j => c / q ^ j + irrNpvAux q cs (j + 1)

/-- The total-project NPV computed inside `calculateIRR` at a given `rate`. -/
def irrNpv (cashFlows : List K) (rate : K) : K :=
  irrNpvAux (1 + rate) cashFlows 0

/-- The inner `dnpv` accumulation of `calculateIRR`: the term for index `j`
is `-(j * cashFlows[j] / ((1+rate)^j * (1+rate)))`. -/
def irrDnpvAux (q : K) : List K → ℕ → K
  | [], _ => 0
  | c :: cs, j => -((j : K) * c / (q ^ j * q)) + irrDnpvAux q cs (j + 1)

/-- The derivative accumulator of `calculateIRR` at a given `rate`. -/
def irrDnpv (cashFlows : List K) (rate : K) : K :=
  irrDnpvAux (1 + rate) cashFlows 0

/-- One Newton update of `calculateIRR`: `newRate = rate - npv / dnpv`. -/
def irrNewtonStep (cashFlows : List K) (rate : K) : K :=
  rate - irrNpv cashFlows rate / irrDnpv cashFlows rate

/-- The iteration loop of `calculateIRR` with explicit remaining-iteration
count: with fuel `0` the loop has exhausted `maxIterations` and returns
`rate * 100`; otherwise it computes `newRate`, returns `newRate * 100` if
`|newRate - rate| < tolerance` (`tolerance = 0.0001`), and loops. -/
def irrLoop (cashFlows : List K) : K → ℕ → K
  | rate, 0 => rate * 100
  | rate, n + 1 =>
      let newRate := irrNewtonStep cashFlows rate
      if |newRate - rate| < 1 / 10000 then newRate * 100
      else irrLoop cashFlows newRate n

/-- Embeds `calculateIRR(cashFlows, initialGuess = 0.1)` of `src/app.js`:
`maxIterations = 100`. -/
def calculateIRR (cashFlows : List K) (initialGuess : K := 1 / 10) : K :=
  irrLoop cashFlows initialGuess 100

/-- The sequence of Newton iterates of `calculateIRR` starting from guess
`g`: `irrRates cashFlows g j` is the rate after `j` updates. -/
def irrRates (cashFlows : List K) (g : K) (j : ℕ) : K :=
  (irrNewtonStep cashFlows)^[j] g

end FinancialCalculator

namespace FinancialCalculator

/-- Embeds the input record gathered by the form handler of `src/app.js`
(the fields consumed by `generateCashFlows` / `calculateMetrics`).  The
spec calls `yearlyRevenue` "annualRevenueIncrease" and `revenueGrowth`
"annualRevenueGrowthPct". -/
structure ProjectData where
  initialInvestment : ℝ
  discountRate : ℝ
  projectDuration : ℕ
  yearlyRevenue : ℝ
  revenueGrowth : ℝ
  operatingCosts : ℝ
  maintenanceCosts : ℝ

/-- Embeds `generateCashFlows(data)` of `src/app.js`:
`monthlyRevenue = yearlyRevenue / 12`,
`monthlyCosts = (operatingCosts + maintenanceCosts) / 12`,
`monthlyGrowthRate = Math.pow(1 + revenueGrowth/100, 1/12) - 1` (real
twelfth root), first entry `-initialInvestment`, then for
`month = 1 .. projectDuration` the entry
`monthlyRevenue * (1 + monthlyGrowthRate)^(month-1) - monthlyCosts`
(here `m = month - 1` ranges over `List.range projectDuration`). -/
noncomputable def generateCashFlows (data : ProjectData) : List ℝ :=
  let monthlyRevenue := data.yearlyRevenue / 12
  let monthlyCosts := (data.operatingCosts + data.maintenanceCosts) / 12
  let monthlyGrowthRate := ((1 + data.revenueGrowth / 100) ^ ((1 : ℝ) / 12) - 1)
  (-data.initialInvestment) ::
    (List.range data.projectDuration).map
      (fun m => monthlyRevenue * (1 + monthlyGrowthRate) ^ m - monthlyCosts)

/-- The result record of `calculateMetrics` in `src/app.js`. -/
structure Metrics where
  roi : ℝ
  npv : ℝ
  paybackPeriod : ℝ
  irr : ℝ
  cashFlows : List ℝ
  totalRevenue : ℝ

/-- Embeds `calculateMetrics(data)` of `src/app.js`:
`monthlyCashFlows = cashFlows.slice(1)`,
`totalRevenue = monthlyCashFlows.reduce((sum, cf) => sum + cf, 0)`,
then ROI, NPV, payback and IRR of the projected flows. -/
noncomputable def calculateMetrics (data : ProjectData) : Metrics :=
  let cashFlows := generateCashFlows data
  let monthlyCashFlows := cashFlows.drop 1
  let totalRevenue := monthlyCashFlows.foldl (fun sum cf => sum + cf) 0
  { roi := calculateROI data.initialInvestment totalRevenue
    npv := calculateNPV monthlyCashFlows data.discountRate
    paybackPeriod := calculatePaybackPeriod data.initialInvestment monthlyCashFlows
    irr := calculateIRR cashFlows
    cashFlows := cashFlows
    totalRevenue := totalRevenue }

/-- The example parameters of the spec's end-to-end scenario test:
initialInvestment 150000, discountRate 10, duration 24 months, annual
revenue increase 75000, growth 0, operating costs 15000, maintenance
costs 5000. -/
noncomputable def exampleParams : ProjectData :=
  { initialInvestment := 150000
    discountRate := 10
    projectDuration := 24
    yearlyRevenue := 75000
    revenueGrowth := 0
    operatingCosts := 15000
    maintenanceCosts := 5000 }

/-- Embeds the best-case derivation of the form submit handler of
`src/app.js`: `{ ...projectData, yearlyRevenue: yearlyRevenue * bestCaseMultiplier }`. -/
noncomputable def bestCaseData (data : ProjectData) (bestCaseMultiplier : ℝ) : ProjectData :=
  { data with yearlyRevenue := data.yearlyRevenue * bestCaseMultiplier }

/-- Embeds the worst-case derivation of the form submit handler of
`src/app.js`: `{ ...projectData, yearlyRevenue: yearlyRevenue * worstCaseMultiplier }`. -/
noncomputable def worstCaseData (data : ProjectData) (worstCaseMultiplier : ℝ) : ProjectData :=
  { data with yearlyRevenue := data.yearlyRevenue * worstCaseMultiplier }

end FinancialCalculator

namespace FinancialCalculator

variable {K : Type} [LinearOrderedField K]

/-- Unfolding the IRR loop with fuel left: one Newton update, convergence
test, then either a converged return or a recursive call. -/
theorem irrLoop_succ (cf : List K) (r : K) (n : ℕ) :
    irrLoop cf r (n + 1) =
      if |irrNewtonStep cf r - r| < 1 / 10000 then irrNewtonStep cf r * 100
      else irrLoop cf (irrNewtonStep cf r) n := rfl

/-- Unfolding the IRR loop with exhausted fuel: the last rate times 100. -/
theorem irrLoop_zero (cf : List K) (r : K) : irrLoop cf r 0 = r * 100 := rfl

/-- C6: for every totalReturn, `calculateROI 0 totalReturn = 0`: a zero
investment is a defined degenerate case returning 0, not a division by
zero. -/
theorem C6_roi_zero_investment (totalReturn : ℚ) :
    calculateROI 0 totalReturn = 0 := by
  simp [calculateROI]

/-- Helper for C1: the NPV accumulation is antitone in the per-period
factor `q` when every cash flow is nonnegative. -/
theorem npvAux_antitone (q1 q2 : K) (hq : 0 < q1) (hle : q1 ≤ q2) :
    ∀ l : List K, (∀ c ∈ l, 0 ≤ c) → ∀ i : ℕ, npvAux q2 l i ≤ npvAux q1 l i := by
  intro l
  induction l with
  | nil => intro _ i; simp [npvAux]
  | cons c cs ih =>
      intro hc i
      simp only [npvAux]
      have hc0 : 0 ≤ c := hc c (by simp)
      have hcs : ∀ x ∈ cs, 0 ≤ x := fun x hx => hc x (by simp [hx])
      have hq1p : (0 : K) < q1 ^ (i + 1) := pow_pos hq _
      have hpow : q1 ^ (i + 1) ≤ q2 ^ (i + 1) := pow_le_pow_left₀ hq.le hle _
      exact add_le_add (div_le_div_of_nonneg_left hc0 hq1p hpow) (ih hcs (i + 1))

/-- C1 counterexample: the claim fails as stated.  The sequence
`[-100, 101]` has strictly positive undiscounted sum, the rates 200 < 300
both have `1 + r/100 > 0`, yet NPV at rate 200 is strictly smaller than
NPV at rate 300 — NPV is not monotonically decreasing there. -/
theorem C1_counterexample :
    (0 : ℚ) < [(-100 : ℚ), 101].sum ∧ (200 : ℚ) < 300 ∧
      (0 : ℚ) < 1 + 200 / 100 ∧ (0 : ℚ) < 1 + 300 / 100 ∧
      ¬ calculateNPV [(-100 : ℚ), 101] 300 ≤ calculateNPV [(-100 : ℚ), 101] 200 := by
  norm_num [calculateNPV, npvAux]

/-- C1 amended: for every cash-flow sequence whose entries are all
nonnegative, `calculateNPV` is monotonically decreasing in the discount
rate: for all rates `r1 < r2` with `1 + r1/100` positive,
`calculateNPV cashFlows r1 ≥ calculateNPV cashFlows r2`. -/
theorem C1_npv_antitone (cashFlows : List ℚ) (r1 r2 : ℚ)
    (hc : ∀ c ∈ cashFlows, 0 ≤ c) (h12 : r1 < r2) (hpos : 0 < 1 + r1 / 100) :
    calculateNPV cashFlows r2 ≤ calculateNPV cashFlows r1 := by
  have hle : 1 + r1 / 100 ≤ 1 + r2 / 100 := by linarith
  exact npvAux_antitone _ _ hpos hle cashFlows hc 0

/-- C1 witness: the amended monotonicity at the nonnegative sequence
`[100, 200]` and rates 10 < 20. -/
theorem C1_witness :
    (10 : ℚ) < 20 ∧ (0 : ℚ) < 1 + 10 / 100 ∧
      calculateNPV [(100 : ℚ), 200] 20 ≤ calculateNPV [(100 : ℚ), 200] 10 :=
  ⟨by norm_num, by norm_num,
    C1_npv_antitone [100, 200] 10 20 (by norm_num) (by norm_num) (by norm_num)⟩

/-- C2 counterexample: the claim fails as stated for negative (non-zero)
investments.  With investment −100 and totalReturn 0 we have
`totalReturn − investment = 100 > 0`, yet the ROI is −100, not positive. -/
theorem C2_counterexample :
    ((-100 : ℚ) ≠ 0) ∧ (0 : ℚ) < 0 - (-100 : ℚ) ∧
      ¬ 0 < calculateROI (-100 : ℚ) 0 := by
  refine ⟨by norm_num, by norm_num, ?_⟩
  norm_num [calculateROI]

/-- C2 amended: for every strictly positive investment and every
totalReturn, the sign of `calculateROI investment totalReturn` equals the
sign of `totalReturn - investment`: positive iff totalReturn > investment,
zero iff equal, negative iff totalReturn < investment. -/
theorem C2_roi_sign (investment totalReturn : ℚ) (h : 0 < investment) :
    (0 < calculateROI investment totalReturn ↔ investment < totalReturn) ∧
      (calculateROI investment totalReturn = 0 ↔ totalReturn = investment) ∧
      (calculateROI investment totalReturn < 0 ↔ totalReturn < investment) := by
  have hc : (0 : ℚ) < 100 / investment := by positivity
  have hv : calculateROI investment totalReturn =
      (totalReturn - investment) * (100 / investment) := by
    rw [calculateROI, if_neg h.ne']
    ring
  refine ⟨?_, ?_, ?_⟩
  · rw [hv]
    constructor
    · intro hp
      nlinarith
    · intro hp
      have := mul_pos (sub_pos.2 hp) hc
      linarith
  · rw [hv, mul_eq_zero]
    constructor
    · rintro (hx | hx)
      · exact sub_eq_zero.1 hx
      · exact absurd hx (ne_of_gt hc)
    · intro hx
      left
      rw [hx]
      ring
  · rw [hv]
    constructor
    · intro hp
      nlinarith
    · intro hp
      nlinarith

/-- C2 witness: the amended sign characterisation at investment 100 and
totalReturn 150. -/
theorem C2_witness :
    (0 : ℚ) < 100 ∧
      ((0 < calculateROI (100 : ℚ) 150 ↔ (100 : ℚ) < 150) ∧
        (calculateROI (100 : ℚ) 150 = 0 ↔ (150 : ℚ) = 100) ∧
        (calculateROI (100 : ℚ) 150 < 0 ↔ (150 : ℚ) < 100)) :=
  ⟨by norm_num, C2_roi_sign 100 150 (by norm_num)⟩

/-- Helper for C5: if every cumulative value stays strictly negative
through the whole scan, the payback loop falls through and returns the
accumulated index plus the length of the remaining list. -/
theorem paybackAux_no_breakeven :
    ∀ (l : List K) (cum : K) (i : ℕ),
      (∀ k < l.length, cum + (l.take (k + 1)).sum < 0) →
      paybackAux cum l i = ((i + l.length : ℕ) : K) := by
  intro l
  induction l with
  | nil => intro cum i _; simp [paybackAux]
  | cons c cs ih =>
      intro cum i h
      have h0 : cum + c < 0 := by
        have := h 0 (by simp)
        simpa using this
      have hrec : paybackAux (cum + c) cs (i + 1) = (((i + 1) + cs.length : ℕ) : K) := by
        apply ih
        intro k hk
        have := h (k + 1) (by simpa using Nat.succ_lt_succ hk)
        simpa [add_assoc] using this
      simp only [paybackAux]
      rw [if_neg (not_le.2 h0), hrec]
      congr 1
      simp
      omega

/-- C5: if the running cumulative (starting at `-initialInvestment` and
adding each month's flow in order) never reaches a value `≥ 0`, then
`calculatePaybackPeriod` returns exactly the length of the series — the
sentinel for "did not break even within project duration". -/
theorem C5_payback_sentinel (initialInvestment : ℚ) (monthlyCashFlows : List ℚ)
    (h : ∀ k ≤ monthlyCashFlows.length,
        -initialInvestment + (monthlyCashFlows.take k).sum < 0) :
    calculatePaybackPeriod initialInvestment monthlyCashFlows =
      (monthlyCashFlows.length : ℚ) := by
  rw [calculatePaybackPeriod,
    paybackAux_no_breakeven monthlyCashFlows (-initialInvestment) 0
      (fun k hk => h (k + 1) (by omega))]
  simp

/-- C5 witness: investment 100 against flows `[10, 20]` never breaks even,
and the sentinel 2 (the series length) is returned. -/
theorem C5_witness :
    calculatePaybackPeriod (100 : ℚ) [10, 20] = (([(10 : ℚ), 20]).length : ℚ) :=
  C5_payback_sentinel 100 [10, 20]
    (by
      intro k hk
      simp only [List.length_cons, List.length_nil] at hk
      interval_cases k <;> norm_num)

/-- Helper for C7: on a constant positive flow `c` the payback loop
returns the accumulated index plus exactly `I / c` whenever the remaining
budget `n * c` covers the outstanding amount `I > 0`. -/
theorem paybackAux_const (c : ℚ) (hc : 0 < c) :
    ∀ (n : ℕ) (I : ℚ), 0 < I → I ≤ n * c → ∀ i : ℕ,
      paybackAux (-I) (List.replicate n c) i = (i : ℚ) + I / c := by
  intro n
  induction n with
  | zero =>
      intro I hI hIn i
      exfalso
      simp at hIn
      linarith
  | succ n ih =>
      intro I hI hIn i
      rw [List.replicate_succ]
      simp only [paybackAux]
      by_cases hbe : 0 ≤ -I + c
      · rw [if_pos hbe, neg_neg]
      · rw [if_neg hbe]
        push_neg at hbe
        have hIc : 0 < I - c := by linarith
        have h2 : I - c ≤ n * c := by
          push_cast at hIn
          linarith
        have : -I + c = -(I - c) := by ring
        rw [this, ih (I - c) hIc h2 (i + 1)]
        push_cast
        field_simp
        ring

/-- C7: for a constant positive monthly flow `c`, an investment `I` with
`0 < I ≤ n·c` and a series of `n` months each equal to `c`,
`calculatePaybackPeriod I series` equals exactly `I / c`. -/
theorem C7_payback_constant_flow (c I : ℚ) (n : ℕ) (hc : 0 < c) (hI : 0 < I)
    (hIn : I ≤ n * c) :
    calculatePaybackPeriod I (List.replicate n c) = I / c := by
  rw [calculatePaybackPeriod, paybackAux_const c hc n I hI hIn 0]
  norm_num

/-- C7 witness: the spec's example — investment 12000 and constant flow
1000 over 24 months yield payback 12. -/
theorem C7_witness :
    (0 : ℚ) < 1000 ∧ (0 : ℚ) < 12000 ∧ (12000 : ℚ) ≤ (24 : ℕ) * 1000 ∧
      calculatePaybackPeriod (12000 : ℚ) (List.replicate 24 1000) = 12 := by
  refine ⟨by norm_num, by norm_num, by norm_num, ?_⟩
  rw [C7_payback_constant_flow 1000 12000 24 (by norm_num) (by norm_num) (by norm_num)]
  norm_num

/-- Helper for C10: starting from a strictly negative cumulative, the
payback loop either falls through (index plus remaining length) or stops
at some month `k` in range with an interpolation fraction in `(0, 1]`. -/
theorem paybackAux_cases :
    ∀ (l : List ℚ) (cum : ℚ) (i : ℕ), cum < 0 →
      paybackAux cum l i = ((i + l.length : ℕ) : ℚ) ∨
        ∃ k : ℕ, i ≤ k ∧ k < i + l.length ∧ ∃ f : ℚ, 0 < f ∧ f ≤ 1 ∧
          paybackAux cum l i = (k : ℚ) + f := by
  intro l
  induction l with
  | nil => intro cum i _; left; simp [paybackAux]
  | cons c cs ih =>
      intro cum i hcum
      by_cases hbe : 0 ≤ cum + c
      · right
        have hc : 0 < c := by linarith
        refine ⟨i, le_refl i, by simp, -cum / c, ?_, ?_, ?_⟩
        · exact div_pos (by linarith) hc
        · rw [div_le_one hc]
          linarith
        · simp only [paybackAux]
          rw [if_pos hbe]
      · push_neg at hbe
        rcases ih (cum + c) (i + 1) hbe with h | ⟨k, hk1, hk2, f, hf1, hf2, hf3⟩
        · left
          simp only [paybackAux]
          rw [if_neg (not_le.2 hbe), h]
          congr 1
          simp
          omega
        · right
          refine ⟨k, by omega, ?_, f, hf1, hf2, ?_⟩
          · simp only [List.length_cons]
            omega
          · simp only [paybackAux]
            rw [if_neg (not_le.2 hbe)]
            exact hf3

/-- C10: for a strictly positive initial investment the payback result is
always within `[0, length]`, and it is either the sentinel (the series
length) or `k + f` for a crossing month `k < length` with interpolation
fraction `f ∈ (0, 1]` — in particular the interpolation divisor is the
strictly positive crossing-month flow, never zero. -/
theorem C10_payback_bounds (initialInvestment : ℚ) (monthlyCashFlows : List ℚ)
    (h : 0 < initialInvestment) :
    (0 ≤ calculatePaybackPeriod initialInvestment monthlyCashFlows ∧
        calculatePaybackPeriod initialInvestment monthlyCashFlows ≤
          (monthlyCashFlows.length : ℚ)) ∧
      (calculatePaybackPeriod initialInvestment monthlyCashFlows =
          (monthlyCashFlows.length : ℚ) ∨
        ∃ k : ℕ, k < monthlyCashFlows.length ∧ ∃ f : ℚ, 0 < f ∧ f ≤ 1 ∧
          calculatePaybackPeriod initialInvestment monthlyCashFlows = (k : ℚ) + f) := by
  have hneg : -initialInvestment < 0 := by linarith
  rw [calculatePaybackPeriod]
  rcases paybackAux_cases monthlyCashFlows (-initialInvestment) 0 hneg with
    hc | ⟨k, _, hk2, f, hf1, hf2, hf3⟩
  · rw [hc]
    simp
  · rw [hf3]
    have hkl : k + 1 ≤ monthlyCashFlows.length := by omega
    have hkc : (k : ℚ) + 1 ≤ (monthlyCashFlows.length : ℚ) := by
      exact_mod_cast hkl
    constructor
    · constructor
      · positivity
      · linarith
    · right
      exact ⟨k, by omega, f, hf1, hf2, rfl⟩

/-- C10 witness: investment 100 against flows `[60, 60]` — the bounds of
the theorem at a concrete input. -/
theorem C10_witness :
    0 ≤ calculatePaybackPeriod (100 : ℚ) [60, 60] ∧
      calculatePaybackPeriod (100 : ℚ) [60, 60] ≤ (([(60 : ℚ), 60]).length : ℚ) :=
  (C10_payback_bounds 100 [60, 60] (by norm_num)).1

/-- Helper for C3: complete case analysis of the IRR loop with fuel `n`.
Either some iteration `k < n` is the first whose update passes the
convergence test and the loop returns that update times 100, or no
iteration converges and the loop returns the `n`-th iterate times 100. -/
theorem irrLoop_cases (cf : List K) :
    ∀ (n : ℕ) (r : K),
      (∃ k < n,
          (∀ j < k,
            ¬ |(irrNewtonStep cf)^[j + 1] r - (irrNewtonStep cf)^[j] r| < 1 / 10000) ∧
          |(irrNewtonStep cf)^[k + 1] r - (irrNewtonStep cf)^[k] r| < 1 / 10000 ∧
          irrLoop cf r n = (irrNewtonStep cf)^[k + 1] r * 100) ∨
      ((∀ j < n,
          ¬ |(irrNewtonStep cf)^[j + 1] r - (irrNewtonStep cf)^[j] r| < 1 / 10000) ∧
        irrLoop cf r n = (irrNewtonStep cf)^[n] r * 100) := by
  intro n
  induction n with
  | zero =>
      intro r
      right
      exact ⟨fun j hj => absurd hj (Nat.not_lt_zero j), by simp [irrLoop_zero]⟩
  | succ n ih =>
      intro r
      by_cases hconv : |irrNewtonStep cf r - r| < 1 / 10000
      · left
        refine ⟨0, Nat.succ_pos n, fun j hj => absurd hj (Nat.not_lt_zero j), ?_, ?_⟩
        · simpa using hconv
        · rw [irrLoop_succ, if_pos hconv]
          simp
      · rcases ih (irrNewtonStep cf r) with ⟨k, hk, hjs, hconv2, heq⟩ | ⟨hjs, heq⟩
        · left
          refine ⟨k + 1, by omega, ?_, ?_, ?_⟩
          · intro j hj
            cases j with
            | zero => simpa using hconv
            | succ j =>
                have := hjs j (by omega)
                simpa [Function.iterate_succ_apply] using this
          · simpa [Function.iterate_succ_apply] using hconv2
          · rw [irrLoop_succ, if_neg hconv, heq]
            simp [Function.iterate_succ_apply]
        · right
          refine ⟨?_, ?_⟩
          · intro j hj
            cases j with
            | zero => simpa using hconv
            | succ j =>
                have := hjs j (by omega)
                simpa [Function.iterate_succ_apply] using this
          · rw [irrLoop_succ, if_neg hconv, heq]
            simp [Function.iterate_succ_apply]

/-- C3: `calculateIRR` performs at most 100 Newton iterations (the loop is
a total function of a fuel argument fixed at 100).  If some iteration's
update satisfies `|newRate - rate| < 0.0001` the converged `newRate * 100`
is returned; if all 100 iterations elapse without that condition the last
computed rate times 100 is returned — the two outcomes are not
distinguished in the return value. -/
theorem C3_irr_iteration_bound (cashFlows : List ℚ) (g : ℚ) :
    (∃ k < 100,
        (∀ j < k,
          ¬ |irrRates cashFlows g (j + 1) - irrRates cashFlows g j| < 1 / 10000) ∧
        |irrRates cashFlows g (k + 1) - irrRates cashFlows g k| < 1 / 10000 ∧
        calculateIRR cashFlows g = irrRates cashFlows g (k + 1) * 100) ∨
    ((∀ j < 100,
        ¬ |irrRates cashFlows g (j + 1) - irrRates cashFlows g j| < 1 / 10000) ∧
      calculateIRR cashFlows g = irrRates cashFlows g 100 * 100) := by
  have h := irrLoop_cases cashFlows 100 g
  simpa [irrRates, calculateIRR] using h

/-- Helper for C4: the IRR-internal accumulation from index `i + 1`
coincides with the NPV accumulation from index `i` (the former divides by
`q^j`, the latter by `q^(i+1)`). -/
theorem irrNpvAux_eq_npvAux (q : K) :
    ∀ (l : List K) (i : ℕ), irrNpvAux q l (i + 1) = npvAux q l i := by
  intro l
  induction l with
  | nil => intro i; simp [irrNpvAux, npvAux]
  | cons c cs ih =>
      intro i
      simp only [irrNpvAux, npvAux]
      rw [ih (i + 1)]

/-- C4: the NPV evaluated inside `calculateIRR` includes the index-0 cash
flow undiscounted, while `calculateNPV` discounts its first element one
period: for every non-empty list `c :: cs` and rate `r` with `1 + r ≠ 0`,
the solver's internal sum equals `c + calculateNPV cs (100 * r)`. -/
theorem C4_irr_npv_asymmetry (c : ℚ) (cs : List ℚ) (r : ℚ) (_h : 1 + r ≠ 0) :
    irrNpv (c :: cs) r = c + calculateNPV cs (100 * r) := by
  rw [irrNpv, calculateNPV, show (1 : ℚ) + 100 * r / 100 = 1 + r by ring]
  simp only [irrNpvAux]
  rw [pow_zero, div_one, show (0 : ℕ) + 1 = 0 + 1 from rfl,
    irrNpvAux_eq_npvAux (1 + r) cs 0]

/-- C4 witness: the asymmetry identity at the concrete input
`[-1000, 1100]` and rate 0.1. -/
theorem C4_witness :
    (1 + (1 : ℚ) / 10 ≠ 0) ∧
      irrNpv [(-1000 : ℚ), 1100] (1 / 10) =
        -1000 + calculateNPV [(1100 : ℚ)] (100 * (1 / 10)) :=
  ⟨by norm_num, C4_irr_npv_asymmetry (-1000) [1100] (1 / 10) (by norm_num)⟩

/-- C8: for cash flows `[-1000, 1100]` and the default initial guess 0.1,
the very first Newton update already satisfies the convergence test
`|newRate - rate| < 0.0001`, so `calculateIRR` takes the converged branch
within the 100-iteration budget and returns exactly 10 (percent). -/
theorem C8_irr_converges_to_ten :
    |irrNewtonStep [(-1000 : ℚ), 1100] (1 / 10) - 1 / 10| < 1 / 10000 ∧
      calculateIRR [(-1000 : ℚ), 1100] (1 / 10) = 10 := by
  have hstep : irrNewtonStep [(-1000 : ℚ), 1100] (1 / 10) = 1 / 10 := by
    norm_num [irrNewtonStep, irrNpv, irrNpvAux, irrDnpv, irrDnpvAux]
  refine ⟨by rw [hstep]; norm_num, ?_⟩
  rw [calculateIRR, show (100 : ℕ) = 99 + 1 from rfl, irrLoop_succ, hstep]
  norm_num

/-- Helper for C9: with zero revenue growth the projected series is the
investment outflow followed by a constant monthly net flow. -/
theorem generateCashFlows_zero_growth (I dr R Co Cm : ℝ) (n : ℕ) :
    generateCashFlows ⟨I, dr, n, R, 0, Co, Cm⟩ =
      (-I) :: List.replicate n (R / 12 - (Co + Cm) / 12) := by
  rw [generateCashFlows]
  norm_num [Real.one_rpow, List.map_const']

/-- Helper for C9: folding addition over a constant list. -/
theorem foldl_add_replicate (n : ℕ) (c : ℝ) : ∀ acc : ℝ,
    (List.replicate n c).foldl (fun sum cf => sum + cf) acc = acc + n * c := by
  induction n with
  | zero => intro acc; simp
  | succ n ih =>
      intro acc
      rw [List.replicate_succ]
      simp only [List.foldl_cons]
      rw [ih]
      push_cast
      ring

/-- Helper for C9: the ROI field of `calculateMetrics` for zero-growth
parameters is the ROI of `n` constant monthly net flows. -/
theorem calculateMetrics_roi_zero_growth (I dr R Co Cm : ℝ) (n : ℕ) :
    (calculateMetrics ⟨I, dr, n, R, 0, Co, Cm⟩).roi =
      calculateROI I ((n : ℝ) * (R / 12 - (Co + Cm) / 12)) := by
  rw [calculateMetrics]
  simp only [generateCashFlows_zero_growth, List.drop_one, List.tail_cons]
  rw [foldl_add_replicate]
  norm_num

/-- C9: for the spec's example parameters (investment 150000, annual
revenue increase 75000, operating costs 15000, maintenance costs 5000,
24 months, discount rate 10, growth 0) with best multiplier 1.3 and worst
multiplier 0.7 applied to the revenue increase only, the best-case ROI
strictly exceeds the expected ROI, which strictly exceeds the worst-case
ROI. -/
theorem C9_scenario_roi_ordering :
    (calculateMetrics (bestCaseData exampleParams (13 / 10))).roi >
        (calculateMetrics exampleParams).roi ∧
      (calculateMetrics exampleParams).roi >
        (calculateMetrics (worstCaseData exampleParams (7 / 10))).roi := by
  have hbd : bestCaseData exampleParams (13 / 10) =
      ⟨150000, 10, 24, 75000 * (13 / 10), 0, 15000, 5000⟩ := rfl
  have hwd : worstCaseData exampleParams (7 / 10) =
      ⟨150000, 10, 24, 75000 * (7 / 10), 0, 15000, 5000⟩ := rfl
  have hed : exampleParams = ⟨150000, 10, 24, 75000, 0, 15000, 5000⟩ := rfl
  rw [hbd, hwd, hed, calculateMetrics_roi_zero_growth,
    calculateMetrics_roi_zero_growth, calculateMetrics_roi_zero_growth]
  norm_num [calculateROI]

end FinancialCalculator
